import Mathlib

/-!
Shallow embedding of `src/cyclops/tasks/mortality_prediction.py`
(class `MortalityPrediction`, a task-orchestration wrapper for binary
mortality-prediction models over tabular data).

Modelling conventions:
- the Python model registry (a `dict` from name to `WrappedModel`) is an
  association list preserving insertion order, with `dict.update` semantics
  (overwrite in place, append new keys);
- raised Python exceptions become `Except TaskError`;
- calls to external collaborators (the fit, find-best,
  predict, predict-proba and load operations of the model handle, and
  `LOGGER`) are recorded as events in the result, since only the dispatch
  is code of this module;
- `to_numpy` (external util, a representation conversion) is the identity
  on the already-numeric embedded arrays;
- a `ColumnTransformer` is a fitted-flag plus its column transformation;
  `transform` raises `NotFittedError` when unfitted, `fit_transform`
  always succeeds.
-/

namespace Cyclops

/-- A log record emitted through `LOGGER`. -/
inductive LogEvent
  | warning (msg : String)
  | error (msg : String)
  | info (msg : String)
deriving Repr, DecidableEq

/-- The Python exceptions raised by the module. -/
inductive TaskError
  | valueError (msg : String)
  | notFittedError (msg : String)
  | indexError
  | keyError
  | assertionError
deriving Repr, DecidableEq

/-- A model handle (`WrappedModel`): its underlying model class name and
whether it is an `SKModel` (the capability check used for
probability-prediction dispatch). -/
structure WrappedModel where
  className : String
  isSKModel : Bool
deriving Repr, DecidableEq

/-- Keys of a Python dict embedded as an association list. -/
def dictKeys {α : Type} (d : List (String × α)) : List String :=
  d.map Prod.fst

/-- Lookup in a Python dict embedded as an association list. -/
def dictGet? {α : Type} (d : List (String × α)) (k : String) : Option α :=
  (d.find? (fun p => p.1 == k)).map Prod.snd

/-- Python dict item assignment `d[k] = v`: overwrite in place when the key exists,
append otherwise. -/
def dictSet {α : Type} (d : List (String × α)) (k : String) (v : α) :
    List (String × α) :=
  if (d.find? (fun p => p.1 == k)).isSome then
    d.map (fun p => if p.1 == k then (k, v) else p)
  else
    d ++ [(k, v)]

/-- Python dict `d.update(new)`: set every key of `new` in order. -/
def dictUpdate {α : Type} (d : List (String × α)) :
    List (String × α) → List (String × α)
  | [] => d
  | (k, v) :: rest => dictUpdate (dictSet d k v) rest

/-- Python dict `d.pop(k, default)`: the removed value (if any) and the remaining dict. -/
def dictPop {α : Type} (d : List (String × α)) (k : String) :
    Option α × List (String × α) :=
  (dictGet? d k, d.filter (fun p => !(p.1 == k)))

/-- Decidable equality for `Except`, so that concrete runs of the
embedded operations can be checked by evaluation. -/
instance {ε α : Type} [DecidableEq ε] [DecidableEq α] :
    DecidableEq (Except ε α) := fun x y =>
  match x, y with
  | Except.error a, Except.error b =>
    if h : a = b then isTrue (by rw [h])
    else isFalse (by intro hc; injection hc; contradiction)
  | Except.ok a, Except.ok b =>
    if h : a = b then isTrue (by rw [h])
    else isFalse (by intro hc; injection hc; contradiction)
  | Except.error _, Except.ok _ => isFalse (fun hc => Except.noConfusion hc)
  | Except.ok _, Except.error _ => isFalse (fun hc => Except.noConfusion hc)

/-- The state of a `MortalityPrediction` task controller. -/
structure MortalityPrediction where
  models : List (String × WrappedModel)
  task_features : List String
  task_target : List String
  trained_models : List String
  pretrained_models : List String
deriving Repr, DecidableEq

namespace MortalityPrediction

/-- Property `task_type`. -/
def task_type (_t : MortalityPrediction) : String := "binary"

/-- Property `data_type`. -/
def data_type (_t : MortalityPrediction) : String := "tabular"

/-- Property `models_count`: `len(self.models)`. -/
def models_count (t : MortalityPrediction) : Nat := t.models.length

/-- Method `list_models`: `list(self.models.keys())`. -/
def list_models (t : MortalityPrediction) : List String := dictKeys t.models

/-- Python truthiness of an optional string argument: `not model_name`
holds for `None` and for the empty string. -/
def optFalsy : Option String → Bool
  | none => true
  | some s => s == ""

/-- The error message raised by `add_model` collision logging. -/
def addCollisionMsg : String :=
  "Failed to add the model. A model with same name already exists."

/-- Method `add_model`: the argument is the dict produced by `prepare_models`
(an external util).  If every supplied name is already registered
(`set(keys).issubset(list_models)`), log an error and leave the registry
untouched; otherwise merge via `dict.update` and log at info level.
Never raises. -/
def add_model (t : MortalityPrediction)
    (model_dict : List (String × WrappedModel)) :
    MortalityPrediction × List LogEvent :=
  if (dictKeys model_dict).all (fun k => t.list_models.contains k) then
    (t, [LogEvent.error addCollisionMsg])
  else
    ({ t with models := dictUpdate t.models model_dict },
     [LogEvent.info (String.intercalate ", " (dictKeys model_dict)
        ++ " is added to task models.")])

/-- The `get_model` error message when several models exist and no name
was given. -/
def specifyMsg (names : List String) : String :=
  "Please specify a model from " ++ String.intercalate ", " names

/-- The `get_model` error message for an unknown model name. -/
def unknownMsg (name : String) : String :=
  "The model " ++ name ++ " does not exist. "
    ++ "You can add the model using Task.add_model()"

/-- Method `get_model`: resolve an optional model name to a (name, handle) pair.
Raises `ValueError` when more than one model exists and no (truthy) name
is given, or when a (truthy) name is not registered; indexing
`list_models()[0]` on an empty registry raises `IndexError`. -/
def get_model (t : MortalityPrediction) (model_name : Option String) :
    Except TaskError (String × WrappedModel) :=
  if t.models_count > 1 && optFalsy model_name then
    Except.error (TaskError.valueError (specifyMsg t.list_models))
  else if !optFalsy model_name
      && !(t.list_models.contains (model_name.getD "")) then
    Except.error (TaskError.valueError (unknownMsg (model_name.getD "")))
  else
    match (if optFalsy model_name then t.list_models.head?
           else some (model_name.getD "")) with
    | none => Except.error TaskError.indexError
    | some name =>
      match dictGet? t.models name with
      | some m => Except.ok (name, m)
      | none => Except.error TaskError.keyError

end MortalityPrediction

/-- Data features passed to `train`: a Hugging Face `Dataset`/`DatasetDict`
(opaque to this module) or a raw array/table with optional labels. -/
inductive TrainInput
  | hfDataset
  | raw (X : List (List Int)) (y : Option (List Int))
deriving Repr, DecidableEq

/-- Data passed to `predict`: structured dataset or a raw array/table. -/
inductive PredictInput
  | hfDataset
  | raw (X : List (List Int))
deriving Repr, DecidableEq

/-- A `ColumnTransformer`: a fitted flag plus the column transformation it
applies. -/
structure CTransformer where
  fitted : Bool
  applyT : List (List Int) → List (List Int)

/-- Embeds `transforms.transform(X)`: raises `NotFittedError` when not fitted. -/
def CTransformer.transformCall (tr : CTransformer) (X : List (List Int)) :
    Except Unit (List (List Int)) :=
  if tr.fitted then Except.ok (tr.applyT X) else Except.error ()

/-- Embeds `transforms.fit_transform(X)`: fits on `X` and transforms it. -/
def CTransformer.fitTransformCall (tr : CTransformer) (X : List (List Int)) :
    List (List Int) :=
  tr.applyT X

/-- Which transform-pipeline operations ran, in order. -/
inductive TransformOp
  | transformAttempt
  | fitTransform
deriving Repr, DecidableEq

/-- The call the controller dispatched to the model handle, with the
arguments this module computed for it. -/
inductive ModelCall
  | findBestDataset (params : List (String × String)) (metric : Option String)
      (method : String)
  | fitDataset
  | findBestRaw (params : List (String × String)) (X : List (List Int))
      (y : List Int) (metric : Option String) (method : String)
  | fitRaw (X : List (List Int)) (y : List Int)
  | loadModel (filepath : String)
  | predictProbaDataset
  | predictDataset
  | predictProbaRaw (X : List (List Int))
  | predictRaw (X : List (List Int))
deriving Repr, DecidableEq

namespace MortalityPrediction

/-- The `ValueError` message for a raw-array `train` call without labels. -/
def missingLabelsMsg : String :=
  "Missing data labels y. Please provide the labels for "
    ++ "the training data when not using a Hugging Face dataset "
    ++ "as the input."

/-- The `NotFittedError` message raised by `predict` (and its text as a
warning in `evaluate`). -/
def notFittedMsg : String :=
  "It seems you have neither trained the model nor "
    ++ "loaded a pretrained model."

/-- Result of a successful `train` call: the updated task state, the call
dispatched to the model handle, the transform-pipeline operations run,
and the log records emitted. -/
structure TrainResult where
  task : MortalityPrediction
  call : ModelCall
  transformOps : List TransformOp
  logs : List LogEvent
deriving Repr, DecidableEq

/-- Python truthiness of the `best_model_params` optional dict: `None` and
the empty dict are falsy. -/
def dictTruthy {α : Type} : Option (List (String × α)) → Bool
  | none => false
  | some d => !d.isEmpty

/-- Method `train`: resolve the model, branch on the input shape.
On a structured dataset delegate to `find_best` (when a truthy search
dict is given, popping `metric` and `method` with `"grid"` default) or to
`fit`.  On a raw array require labels, run the transform pipeline with a
transform-first / fit-and-transform-on-`NotFittedError` fallback, assert
matching lengths, then `find_best` or `fit` the same way.  On success the
resolved name is appended to `trained_models`. -/
def train (t : MortalityPrediction) (X : TrainInput)
    (model_name : Option String) (transforms : Option CTransformer)
    (best_model_params : Option (List (String × String))) :
    Except TaskError TrainResult :=
  match t.get_model model_name with
  | Except.error e => Except.error e
  | Except.ok (name, _model) =>
    let recorded := { t with trained_models := t.trained_models ++ [name] }
    match X with
    | TrainInput.hfDataset =>
      if dictTruthy best_model_params then
        let d := best_model_params.getD []
        let pm := dictPop d "metric"
        let pme := dictPop pm.2 "method"
        Except.ok ⟨recorded,
          ModelCall.findBestDataset pme.2 pm.1 (pme.1.getD "grid"), [], []⟩
      else
        Except.ok ⟨recorded, ModelCall.fitDataset, [], []⟩
    | TrainInput.raw Xr y =>
      match y with
      | none => Except.error (TaskError.valueError missingLabelsMsg)
      | some yv =>
        let step : List (List Int) × List TransformOp :=
          match transforms with
          | none => (Xr, [])
          | some tr =>
            match tr.transformCall Xr with
            | Except.ok x => (x, [TransformOp.transformAttempt])
            | Except.error _ =>
              (tr.fitTransformCall Xr,
               [TransformOp.transformAttempt, TransformOp.fitTransform])
        let X2 := step.1
        if X2.length == yv.length then
          if dictTruthy best_model_params then
            let d := best_model_params.getD []
            let pm := dictPop d "metric"
            let pme := dictPop pm.2 "method"
            Except.ok ⟨recorded,
              ModelCall.findBestRaw pme.2 X2 yv pm.1 (pme.1.getD "grid"),
              step.2, []⟩
          else
            Except.ok ⟨recorded, ModelCall.fitRaw X2 yv, step.2, []⟩
        else
          Except.error TaskError.assertionError

/-- Method `load_pretrained_model`: resolve the model, delegate to the
load operation of the handle, append the resolved name to `pretrained_models`. -/
def load_pretrained_model (t : MortalityPrediction) (filepath : String)
    (model_name : Option String) :
    Except TaskError (MortalityPrediction × ModelCall) :=
  match t.get_model model_name with
  | Except.error e => Except.error e
  | Except.ok (name, _model) =>
    Except.ok ({ t with pretrained_models := t.pretrained_models ++ [name] },
      ModelCall.loadModel filepath)

/-- Result of a successful `predict` call: the call dispatched to the
model handle, the transform-pipeline operations run, and the log records
emitted. -/
structure PredictResult where
  call : ModelCall
  transformOps : List TransformOp
  logs : List LogEvent
deriving Repr, DecidableEq

/-- Method `predict`: resolve the model; raise `NotFittedError` when the resolved
name is in neither `pretrained_models` nor `trained_models`.  On a
structured dataset call `predict_proba` when `proba` is set and the
handle is an `SKModel`, else `predict`.  On a raw array run the transform
pipeline (fit-and-transform fallback logs a warning here), then dispatch
the same way. -/
def predict (t : MortalityPrediction) (dataset : PredictInput)
    (model_name : Option String) (transforms : Option CTransformer)
    (proba : Bool) : Except TaskError PredictResult :=
  match t.get_model model_name with
  | Except.error e => Except.error e
  | Except.ok (name, model) =>
    if !((t.pretrained_models ++ t.trained_models).contains name) then
      Except.error (TaskError.notFittedError notFittedMsg)
    else
      match dataset with
      | PredictInput.hfDataset =>
        if proba && model.isSKModel then
          Except.ok ⟨ModelCall.predictProbaDataset, [], []⟩
        else
          Except.ok ⟨ModelCall.predictDataset, [], []⟩
      | PredictInput.raw Xr =>
        let step : List (List Int) × List TransformOp × List LogEvent :=
          match transforms with
          | none => (Xr, [], [])
          | some tr =>
            match tr.transformCall Xr with
            | Except.ok x => (x, [TransformOp.transformAttempt], [])
            | Except.error _ =>
              (tr.fitTransformCall Xr,
               [TransformOp.transformAttempt, TransformOp.fitTransform],
               [LogEvent.warning "Fitting preprocessor on evaluation dataset."])
        if proba && model.isSKModel then
          Except.ok ⟨ModelCall.predictProbaRaw step.1, step.2.1, step.2.2⟩
        else
          Except.ok ⟨ModelCall.predictRaw step.1, step.2.1, step.2.2⟩

end MortalityPrediction

/-- A metric built by `create_metric(name, task, num_labels)`. -/
structure Metric where
  name : String
  task : String
  num_labels : Nat
deriving Repr, DecidableEq

/-- The `metrics` argument of `evaluate`: a list of metric names or an
already-built `MetricCollection`. -/
inductive MetricsArg
  | names (ms : List String)
  | collection (ms : List Metric)
deriving Repr, DecidableEq

/-- The `model_names` argument of `evaluate`: a single string, a list, or
`None`. -/
inductive ModelNamesArg
  | one (s : String)
  | many (ss : List String)
  | noneArg
deriving Repr, DecidableEq

namespace MortalityPrediction

/-- The `metrics` normalization at the top of `evaluate`: a non-empty list
of names is turned into a `MetricCollection` of metrics built for the
task type with `num_labels = len(task_features)`; anything else is passed
through. -/
def normalizeMetrics (t : MortalityPrediction) : MetricsArg → MetricsArg
  | MetricsArg.names ms =>
    if ms.length != 0 then
      MetricsArg.collection
        (ms.map (fun m => ⟨m, t.task_type, t.task_features.length⟩))
    else
      MetricsArg.names ms
  | MetricsArg.collection c => MetricsArg.collection c

/-- The `model_names` normalization in `evaluate`: a string becomes a
singleton; a falsy argument (`None` or the empty list) defaults to
`pretrained_models + trained_models`. -/
def normalizeModelNames (t : MortalityPrediction) :
    ModelNamesArg → List String
  | ModelNamesArg.one s => [s]
  | ModelNamesArg.many ss =>
    if ss.isEmpty then t.pretrained_models ++ t.trained_models else ss
  | ModelNamesArg.noneArg => t.pretrained_models ++ t.trained_models

/-- The per-model loop of `evaluate`: for each name, log a warning when it
is in neither fit-state list, then call `self.predict` on the structured
dataset (with that name, the transforms, and `proba` left at its default
`True`); an exception from `predict` propagates.  Returns the log records
and the handle calls, in order. -/
def evaluateLoop (t : MortalityPrediction) (transforms : Option CTransformer) :
    List String → Except TaskError (List LogEvent × List ModelCall)
  | [] => Except.ok ([], [])
  | name :: rest =>
    let warn : List LogEvent :=
      if !((t.pretrained_models ++ t.trained_models).contains name) then
        [LogEvent.warning notFittedMsg]
      else
        []
    match t.predict PredictInput.hfDataset (some name) transforms true with
    | Except.error e => Except.error e
    | Except.ok pr =>
      match t.evaluateLoop transforms rest with
      | Except.error e => Except.error e
      | Except.ok (lgs, calls) =>
        Except.ok (warn ++ pr.logs ++ lgs, pr.call :: calls)

/-- Result of a successful `evaluate` call: the normalized metric
collection handed to the evaluation engine, the log records, and the
handle calls made while augmenting the dataset with predictions.  The
final scoring is delegated to the external evaluation engine. -/
structure EvaluateResult where
  metrics : MetricsArg
  logs : List LogEvent
  predictCalls : List ModelCall
deriving Repr, DecidableEq

/-- Method `evaluate`: normalize the metrics and model names, run the per-model
predict loop on the structured dataset, then delegate scoring to the
external evaluation engine. -/
def evaluate (t : MortalityPrediction) (metrics : MetricsArg)
    (model_names : ModelNamesArg) (transforms : Option CTransformer) :
    Except TaskError EvaluateResult :=
  let ms := t.normalizeMetrics metrics
  let names := t.normalizeModelNames model_names
  match t.evaluateLoop transforms names with
  | Except.error e => Except.error e
  | Except.ok (lgs, calls) => Except.ok ⟨ms, lgs, calls⟩

/-- Net effect of the transform-pipeline step of `train`/`predict` on the
feature array: both the plain transform call and the
fit-and-transform fallback apply the column transformation to the input
(`None` passes the array through). -/
def transformedX (tr : Option CTransformer) (X : List (List Int)) :
    List (List Int) :=
  match tr with
  | none => X
  | some p => p.applyT X

end MortalityPrediction

/-- Example handle standing for a scikit-learn model (an `SKModel`). -/
def exModelSK : WrappedModel := ⟨"MLPClassifier", true⟩

/-- Example handle standing for a model that is not an `SKModel`. -/
def exModelNoSK : WrappedModel := ⟨"RandomForestClassifier", false⟩

/-- The default task feature columns of the constructor. -/
def defaultFeatures : List String :=
  ["age", "sex", "admission_type", "admission_location"]

/-- The default task target column of the constructor. -/
def defaultTarget : List String := ["outcome_death"]

/-- Example task state: one registered model named `a`, nothing fitted. -/
def exTask1 : MortalityPrediction :=
  ⟨[("a", exModelSK)], defaultFeatures, defaultTarget, [], []⟩

/-- Example task state: two registered models, nothing fitted. -/
def exTask2 : MortalityPrediction :=
  ⟨[("a", exModelSK), ("b", exModelNoSK)], defaultFeatures, defaultTarget,
   [], []⟩

/-- Example task state: empty registry. -/
def exTask0 : MortalityPrediction :=
  ⟨[], defaultFeatures, defaultTarget, [], []⟩

/-- Example task state: one registered model named `a`, already trained. -/
def exTaskFit : MortalityPrediction :=
  ⟨[("a", exModelSK)], defaultFeatures, defaultTarget, ["a"], []⟩

/-- Example transform pipeline that is not yet fitted; its column
transformation is the identity. -/
def exTransformU : CTransformer := ⟨false, id⟩

/-- Example task state after loading a pretrained model into `exTask1`. -/
def exTaskLoaded : MortalityPrediction :=
  ⟨[("a", exModelSK)], defaultFeatures, defaultTarget, [], ["a"]⟩

open MortalityPrediction

/-- C1: on a task whose only model `a` is in neither `trained_models` nor
`pretrained_models`, `evaluate` does not merely warn and complete: the
`predict` call it makes for `a` raises `NotFittedError`, which
propagates out of `evaluate`, exactly as `predict` raises when called
directly on that name. -/
theorem claim_C1_evaluate_unfitted_raises :
    exTask1.evaluate (MetricsArg.names ["accuracy"]) (ModelNamesArg.one "a")
      none = Except.error (TaskError.notFittedError notFittedMsg) ∧
    exTask1.predict PredictInput.hfDataset (some "a") none true =
      Except.error (TaskError.notFittedError notFittedMsg) := by
  constructor <;> rfl

/-- C2 counterexample: with model `a` registered, calling `add_model` with
a dict containing the already-registered name `a` together with a new
name `b` does mutate the registry (it merges the whole dict, overwriting
`a`), refuting the claim that any collision leaves the registry
completely unchanged. -/
theorem claim_C2_counterexample :
    exTask1.list_models.contains "a" = true ∧
    (exTask1.add_model [("a", exModelNoSK), ("b", exModelNoSK)]).1.models ≠
      exTask1.models := by
  constructor
  · rfl
  · decide

/-- C2 (amended): `add_model` leaves the registry unchanged, raises
nothing and only logs an error precisely when every supplied model name
is already registered; (when at least one supplied name is new, the
whole dict is merged instead). -/
theorem claim_C2_add_model_collision_noop
    (t : MortalityPrediction) (d : List (String × WrappedModel))
    (h : (dictKeys d).all (fun k => t.list_models.contains k) = true) :
    t.add_model d = (t, [LogEvent.error addCollisionMsg]) := by
  unfold MortalityPrediction.add_model
  rw [if_pos h]

/-- C2 witness: concrete instance of the amended collision no-op. -/
theorem claim_C2_add_model_collision_noop_witness :
    ((dictKeys [("a", exModelNoSK)]).all
      (fun k => exTask1.list_models.contains k) = true) ∧
    exTask1.add_model [("a", exModelNoSK)] =
      (exTask1, [LogEvent.error addCollisionMsg]) :=
  ⟨by decide, claim_C2_add_model_collision_noop exTask1 [("a", exModelNoSK)]
    (by decide)⟩

/-- C3 counterexample: on a registry holding exactly one model, `get_model`
with an unknown name does not return that model; it raises the
`ValueError` naming `add_model`, refuting "returns that model regardless
of the name argument". -/
theorem claim_C3_counterexample :
    exTask1.models_count = 1 ∧
    exTask1.get_model (some "zz") ≠ Except.ok ("a", exModelSK) ∧
    exTask1.get_model (some "zz") =
      Except.error (TaskError.valueError (unknownMsg "zz")) := by
  refine ⟨rfl, ?_, rfl⟩
  decide

/-- C3 (amended): `get_model` on a one-model registry returns that model
when no name is supplied; a supplied name absent from the registry
raises the error naming `add_model` as the remedy even when only one
model exists; with two or more models and no name it raises the error
listing the valid names. -/
theorem claim_C3_get_model_resolution
    (ta tb : MortalityPrediction) (n s : String) (m : WrappedModel)
    (h1 : ta.models = [(n, m)])
    (h2 : (s == "") = false)
    (h3 : tb.list_models.contains s = false)
    (h4 : tb.models_count > 1) :
    ta.get_model none = Except.ok (n, m) ∧
    tb.get_model (some s) =
      Except.error (TaskError.valueError (unknownMsg s)) ∧
    tb.get_model none =
      Except.error (TaskError.valueError (specifyMsg tb.list_models)) := by
  refine ⟨?_, ?_, ?_⟩
  · unfold MortalityPrediction.get_model
    simp [MortalityPrediction.models_count, MortalityPrediction.list_models,
      dictKeys, dictGet?, optFalsy, h1]
  · unfold MortalityPrediction.get_model
    simp [optFalsy, h2, h3]
    intro hs
    simp at h3
    exact absurd hs h3
  · unfold MortalityPrediction.get_model
    simp [optFalsy, h4]

/-- C3 witness: concrete instance of the amended resolution behavior. -/
theorem claim_C3_get_model_resolution_witness :
    (exTask1.models = [("a", exModelSK)]) ∧
    (("zz" == "") = false) ∧
    (exTask2.list_models.contains "zz" = false) ∧
    (exTask2.models_count > 1) ∧
    (exTask1.get_model none = Except.ok ("a", exModelSK) ∧
     exTask2.get_model (some "zz") =
       Except.error (TaskError.valueError (unknownMsg "zz")) ∧
     exTask2.get_model none =
       Except.error (TaskError.valueError (specifyMsg exTask2.list_models))) :=
  ⟨rfl, by decide, by decide, by decide,
   claim_C3_get_model_resolution exTask1 exTask2 "a" "zz" exModelSK rfl
     (by decide) (by decide) (by decide)⟩

/-- C4: after a successful `train` the resolved name is in
`trained_models`; after a successful `load_pretrained_model` the
resolved name is in `pretrained_models`; `predict` on a resolved name in
neither list raises `NotFittedError` (the error result carries no
dispatched model call, so no prediction is attempted). -/
theorem claim_C4_fit_state_bookkeeping
    (ta tb tc : MortalityPrediction) (X : TrainInput)
    (mna mnb mnc : Option String) (tra trc : Option CTransformer)
    (bmp : Option (List (String × String))) (ra : TrainResult)
    (fp : String) (rb : MortalityPrediction × ModelCall)
    (na nb nc : String) (ma mb mc : WrappedModel)
    (dp : PredictInput) (pb : Bool)
    (hga : ta.get_model mna = Except.ok (na, ma))
    (hta : ta.train X mna tra bmp = Except.ok ra)
    (hgb : tb.get_model mnb = Except.ok (nb, mb))
    (hlb : tb.load_pretrained_model fp mnb = Except.ok rb)
    (hgc : tc.get_model mnc = Except.ok (nc, mc))
    (hfc : (tc.pretrained_models ++ tc.trained_models).contains nc = false) :
    na ∈ ra.task.trained_models ∧
    nb ∈ rb.1.pretrained_models ∧
    tc.predict dp mnc trc pb =
      Except.error (TaskError.notFittedError notFittedMsg) := by
  refine ⟨?_, ?_, ?_⟩
  · have h : ra.task.trained_models = ta.trained_models ++ [na] := by
      unfold MortalityPrediction.train at hta
      rw [hga] at hta
      dsimp only at hta
      repeat' split at hta
      all_goals first
        | rw [← Except.ok.inj hta]
        | exact absurd hta (by simp)
    rw [h]
    simp
  · unfold MortalityPrediction.load_pretrained_model at hlb
    rw [hgb] at hlb
    rw [← Except.ok.inj hlb]
    simp
  · unfold MortalityPrediction.predict
    rw [hgc]
    simp at hfc
    simp [hfc]

/-- C4 witness: on a one-model task, a structured-dataset train puts `a`
into the trained list, a pretrained load puts `a` into the pretrained
list, and `predict` on the unfitted task raises `NotFittedError`. -/
theorem claim_C4_fit_state_bookkeeping_witness :
    (exTask1.get_model none = Except.ok ("a", exModelSK)) ∧
    (exTask1.train TrainInput.hfDataset none none none =
      Except.ok ⟨exTaskFit, ModelCall.fitDataset, [], []⟩) ∧
    (exTask1.load_pretrained_model "model.pkl" none =
      Except.ok (exTaskLoaded, ModelCall.loadModel "model.pkl")) ∧
    ((exTask1.pretrained_models ++ exTask1.trained_models).contains "a"
      = false) ∧
    ("a" ∈ (⟨exTaskFit, ModelCall.fitDataset, [], []⟩ :
        TrainResult).task.trained_models ∧
     "a" ∈ (exTaskLoaded, ModelCall.loadModel "model.pkl").1.pretrained_models ∧
     exTask1.predict PredictInput.hfDataset none none true =
       Except.error (TaskError.notFittedError notFittedMsg)) :=
  ⟨rfl, rfl, rfl, rfl,
   claim_C4_fit_state_bookkeeping exTask1 exTask1 exTask1 TrainInput.hfDataset
     none none none none none none ⟨exTaskFit, ModelCall.fitDataset, [], []⟩
     "model.pkl" (exTaskLoaded, ModelCall.loadModel "model.pkl")
     "a" "a" "a" exModelSK exModelSK exModelSK PredictInput.hfDataset true
     rfl rfl rfl rfl rfl rfl⟩

/-- C5: for a fitted model, `predict` with the probability flag set
dispatches to the predict-probability operation exactly when the handle
is an `SKModel`, and to plain predict otherwise, identically on the
structured-dataset branch and on the raw-array branch. -/
theorem claim_C5_proba_dispatch
    (t : MortalityPrediction) (nm : String) (m : WrappedModel)
    (mn : Option String) (X : List (List Int)) (tr : Option CTransformer)
    (hg : t.get_model mn = Except.ok (nm, m))
    (hf : (t.pretrained_models ++ t.trained_models).contains nm = true) :
    (t.predict PredictInput.hfDataset mn tr true).map (fun r => r.call) =
      Except.ok (if m.isSKModel then ModelCall.predictProbaDataset
                 else ModelCall.predictDataset) ∧
    (t.predict (PredictInput.raw X) mn tr true).map (fun r => r.call) =
      Except.ok (if m.isSKModel then
                   ModelCall.predictProbaRaw (transformedX tr X)
                 else ModelCall.predictRaw (transformedX tr X)) := by
  simp at hf
  constructor
  · unfold MortalityPrediction.predict
    rw [hg]
    cases hm : m.isSKModel <;> rcases hf with hf | hf <;>
      simp [hf, hm, Except.map]
  · unfold MortalityPrediction.predict
    rw [hg]
    cases tr with
    | none =>
      cases hm : m.isSKModel <;> rcases hf with hf | hf <;>
        simp [hf, hm, transformedX, Except.map]
    | some p =>
      cases hp : p.fitted <;> cases hm : m.isSKModel <;>
        rcases hf with hf | hf <;>
        simp [transformedX, CTransformer.transformCall,
          CTransformer.fitTransformCall, hp, hf, hm, Except.map]

/-- C5 witness: concrete dispatch for a fitted `SKModel`. -/
theorem claim_C5_proba_dispatch_witness :
    (exTaskFit.get_model none = Except.ok ("a", exModelSK)) ∧
    ((exTaskFit.pretrained_models ++ exTaskFit.trained_models).contains "a"
      = true) ∧
    ((exTaskFit.predict PredictInput.hfDataset none none true).map
        (fun r => r.call) =
      Except.ok (if exModelSK.isSKModel then ModelCall.predictProbaDataset
                 else ModelCall.predictDataset) ∧
     (exTaskFit.predict (PredictInput.raw [[1], [2]]) none none true).map
        (fun r => r.call) =
      Except.ok (if exModelSK.isSKModel then
                   ModelCall.predictProbaRaw (transformedX none [[1], [2]])
                 else ModelCall.predictRaw (transformedX none [[1], [2]]))) :=
  ⟨rfl, rfl,
   claim_C5_proba_dispatch exTaskFit "a" exModelSK none [[1], [2]] none
     rfl rfl⟩

/-- C6: `train` on a raw array whose post-transform feature length
differs from the label length raises `AssertionError`; the error result
carries no dispatched model call, so neither fit nor hyperparameter
search is reached. -/
theorem claim_C6_length_mismatch
    (t : MortalityPrediction) (nm : String) (m : WrappedModel)
    (mn : Option String) (tr : Option CTransformer)
    (bmp : Option (List (String × String)))
    (X : List (List Int)) (y : List Int)
    (hg : t.get_model mn = Except.ok (nm, m))
    (hlen : (transformedX tr X).length ≠ y.length) :
    t.train (TrainInput.raw X (some y)) mn tr bmp =
      Except.error TaskError.assertionError := by
  have hb : ((transformedX tr X).length == y.length) = false := by
    simp [hlen]
  unfold MortalityPrediction.train
  rw [hg]
  cases tr with
  | none =>
    simp [transformedX] at hb
    simp [hb]
  | some p =>
    cases hp : p.fitted <;>
      simp [transformedX, hp, CTransformer.transformCall,
        CTransformer.fitTransformCall] at hb ⊢ <;>
      simp [hb]

/-- C6 witness: two feature rows against one label. -/
theorem claim_C6_length_mismatch_witness :
    (exTask1.get_model none = Except.ok ("a", exModelSK)) ∧
    ((transformedX none [[1], [2]]).length ≠ [1].length) ∧
    exTask1.train (TrainInput.raw [[1], [2]] (some [1])) none none none =
      Except.error TaskError.assertionError :=
  ⟨rfl, by decide,
   claim_C6_length_mismatch exTask1 "a" exModelSK none none none
     [[1], [2]] [1] rfl (by decide)⟩

/-- C7: with a supplied transform pipeline that is not fitted, both
`train` and `predict` recover by running fit-and-transform after the
failed transform attempt; the fallback logs the warning only on the
predict path, and nothing is logged on the train path. -/
theorem claim_C7_unfitted_transform_fallback
    (t : MortalityPrediction) (nm : String) (m : WrappedModel)
    (mn : Option String) (X : List (List Int)) (y : List Int)
    (tr : CTransformer) (bmp : Option (List (String × String))) (pb : Bool)
    (hg : t.get_model mn = Except.ok (nm, m))
    (hf : (t.pretrained_models ++ t.trained_models).contains nm = true)
    (hun : tr.fitted = false)
    (hlen : (tr.applyT X).length = y.length) :
    (t.train (TrainInput.raw X (some y)) mn (some tr) bmp).map
        (fun r => (r.transformOps, r.logs)) =
      Except.ok ([TransformOp.transformAttempt, TransformOp.fitTransform],
                 ([] : List LogEvent)) ∧
    (t.predict (PredictInput.raw X) mn (some tr) pb).map
        (fun r => (r.transformOps, r.logs)) =
      Except.ok ([TransformOp.transformAttempt, TransformOp.fitTransform],
                 [LogEvent.warning
                   "Fitting preprocessor on evaluation dataset."]) := by
  have hb : ((tr.applyT X).length == y.length) = true := by
    simp [hlen]
  constructor
  · unfold MortalityPrediction.train
    rw [hg]
    cases hbm : dictTruthy bmp <;>
      simp [CTransformer.transformCall, CTransformer.fitTransformCall, hun,
        hb, hbm, Except.map]
  · unfold MortalityPrediction.predict
    rw [hg]
    simp at hf
    rcases hf with hf | hf <;> cases pb <;> cases hm : m.isSKModel <;>
      simp [hf, hm, CTransformer.transformCall, CTransformer.fitTransformCall,
        hun, Except.map]

/-- C7 witness: an unfitted identity pipeline on a fitted model. -/
theorem claim_C7_unfitted_transform_fallback_witness :
    (exTaskFit.get_model none = Except.ok ("a", exModelSK)) ∧
    ((exTaskFit.pretrained_models ++ exTaskFit.trained_models).contains "a"
      = true) ∧
    (exTransformU.fitted = false) ∧
    ((exTransformU.applyT [[1], [2]]).length = [1, 0].length) ∧
    ((exTaskFit.train (TrainInput.raw [[1], [2]] (some [1, 0])) none
        (some exTransformU) none).map
        (fun r => (r.transformOps, r.logs)) =
      Except.ok ([TransformOp.transformAttempt, TransformOp.fitTransform],
                 ([] : List LogEvent)) ∧
     (exTaskFit.predict (PredictInput.raw [[1], [2]]) none
        (some exTransformU) true).map
        (fun r => (r.transformOps, r.logs)) =
      Except.ok ([TransformOp.transformAttempt, TransformOp.fitTransform],
                 [LogEvent.warning
                   "Fitting preprocessor on evaluation dataset."])) :=
  ⟨rfl, rfl, rfl, rfl,
   claim_C7_unfitted_transform_fallback exTaskFit "a" exModelSK none
     [[1], [2]] [1, 0] exTransformU none true rfl rfl rfl rfl⟩

/-- C8: when a non-empty search-configuration dict is supplied, `train`
pops the `metric` key and the `method` key (defaulting to `grid`) and
dispatches the hyperparameter search with the remaining dict and those
values; with no dict it dispatches plain fit — on both the
structured-dataset branch and the raw-array branch. -/
theorem claim_C8_search_dispatch
    (t : MortalityPrediction) (nm : String) (m : WrappedModel)
    (mn : Option String) (d : List (String × String))
    (X : List (List Int)) (y : List Int)
    (hg : t.get_model mn = Except.ok (nm, m))
    (hd : d.isEmpty = false)
    (hlen : X.length = y.length) :
    (t.train TrainInput.hfDataset mn none (some d)).map (fun r => r.call) =
      Except.ok (ModelCall.findBestDataset
        (dictPop (dictPop d "metric").2 "method").2
        (dictPop d "metric").1
        ((dictPop (dictPop d "metric").2 "method").1.getD "grid")) ∧
    (t.train TrainInput.hfDataset mn none none).map (fun r => r.call) =
      Except.ok ModelCall.fitDataset ∧
    (t.train (TrainInput.raw X (some y)) mn none (some d)).map
        (fun r => r.call) =
      Except.ok (ModelCall.findBestRaw
        (dictPop (dictPop d "metric").2 "method").2 X y
        (dictPop d "metric").1
        ((dictPop (dictPop d "metric").2 "method").1.getD "grid")) ∧
    (t.train (TrainInput.raw X (some y)) mn none none).map
        (fun r => r.call) =
      Except.ok (ModelCall.fitRaw X y) := by
  have hb : (X.length == y.length) = true := by simp [hlen]
  refine ⟨?_, ?_, ?_, ?_⟩ <;>
    (unfold MortalityPrediction.train; rw [hg];
     simp [dictTruthy, hd, hb, Except.map])

/-- C8 witness: a concrete search dict with `metric` and `method` keys. -/
theorem claim_C8_search_dispatch_witness :
    (exTask1.get_model none = Except.ok ("a", exModelSK)) ∧
    (([("lr", "x"), ("metric", "auc"), ("method", "random")] :
        List (String × String)).isEmpty = false) ∧
    (([[1], [2]] : List (List Int)).length = ([1, 0] : List Int).length) ∧
    ((exTask1.train TrainInput.hfDataset none none
        (some [("lr", "x"), ("metric", "auc"), ("method", "random")])).map
        (fun r => r.call) =
      Except.ok (ModelCall.findBestDataset
        (dictPop (dictPop [("lr", "x"), ("metric", "auc"),
          ("method", "random")] "metric").2 "method").2
        (dictPop [("lr", "x"), ("metric", "auc"),
          ("method", "random")] "metric").1
        ((dictPop (dictPop [("lr", "x"), ("metric", "auc"),
          ("method", "random")] "metric").2 "method").1.getD "grid")) ∧
     (exTask1.train TrainInput.hfDataset none none none).map
        (fun r => r.call) =
      Except.ok ModelCall.fitDataset ∧
     (exTask1.train (TrainInput.raw [[1], [2]] (some [1, 0])) none none
        (some [("lr", "x"), ("metric", "auc"), ("method", "random")])).map
        (fun r => r.call) =
      Except.ok (ModelCall.findBestRaw
        (dictPop (dictPop [("lr", "x"), ("metric", "auc"),
          ("method", "random")] "metric").2 "method").2 [[1], [2]] [1, 0]
        (dictPop [("lr", "x"), ("metric", "auc"),
          ("method", "random")] "metric").1
        ((dictPop (dictPop [("lr", "x"), ("metric", "auc"),
          ("method", "random")] "metric").2 "method").1.getD "grid")) ∧
     (exTask1.train (TrainInput.raw [[1], [2]] (some [1, 0])) none none
        none).map (fun r => r.call) =
      Except.ok (ModelCall.fitRaw [[1], [2]] [1, 0])) :=
  ⟨rfl, rfl, rfl,
   claim_C8_search_dispatch exTask1 "a" exModelSK none
     [("lr", "x"), ("metric", "auc"), ("method", "random")]
     [[1], [2]] [1, 0] rfl rfl rfl⟩

/-- C9: `train` on a raw array with no labels raises the `ValueError`
about missing labels; since it raises, no fit call is dispatched and the
returned-state append to `trained_models` is never reached. -/
theorem claim_C9_train_missing_labels
    (t : MortalityPrediction) (nm : String) (m : WrappedModel)
    (mn : Option String) (tr : Option CTransformer)
    (bmp : Option (List (String × String))) (X : List (List Int))
    (hg : t.get_model mn = Except.ok (nm, m)) :
    t.train (TrainInput.raw X none) mn tr bmp =
      Except.error (TaskError.valueError missingLabelsMsg) := by
  unfold MortalityPrediction.train
  rw [hg]

/-- C9 witness: concrete missing-labels train call. -/
theorem claim_C9_train_missing_labels_witness :
    (exTask1.get_model none = Except.ok ("a", exModelSK)) ∧
    exTask1.train (TrainInput.raw [[1], [2]] none) none none none =
      Except.error (TaskError.valueError missingLabelsMsg) :=
  ⟨rfl, claim_C9_train_missing_labels exTask1 "a" exModelSK none none none
    [[1], [2]] rfl⟩

/-- C10: `get_model` with no name on an empty registry raises the
unhandled `IndexError` from `list_models()[0]` (not one of the
documented `ValueError` cases), and `train`, `load_pretrained_model` and
`predict` all inherit it through their initial `get_model` call. -/
theorem claim_C10_empty_registry
    (t : MortalityPrediction) (X : TrainInput) (tr trp : Option CTransformer)
    (bmp : Option (List (String × String))) (fp : String)
    (d : PredictInput) (pb : Bool)
    (h : t.models = []) :
    t.get_model none = Except.error TaskError.indexError ∧
    t.train X none tr bmp = Except.error TaskError.indexError ∧
    t.load_pretrained_model fp none = Except.error TaskError.indexError ∧
    t.predict d none trp pb = Except.error TaskError.indexError := by
  have hg : t.get_model none = Except.error TaskError.indexError := by
    unfold MortalityPrediction.get_model
    simp [MortalityPrediction.models_count, MortalityPrediction.list_models,
      dictKeys, optFalsy, h]
  refine ⟨hg, ?_, ?_, ?_⟩
  · unfold MortalityPrediction.train
    rw [hg]
  · unfold MortalityPrediction.load_pretrained_model
    rw [hg]
  · unfold MortalityPrediction.predict
    rw [hg]

/-- C10 witness: concrete empty-registry task. -/
theorem claim_C10_empty_registry_witness :
    (exTask0.models = []) ∧
    (exTask0.get_model none = Except.error TaskError.indexError ∧
     exTask0.train TrainInput.hfDataset none none none =
       Except.error TaskError.indexError ∧
     exTask0.load_pretrained_model "model.pkl" none =
       Except.error TaskError.indexError ∧
     exTask0.predict PredictInput.hfDataset none none true =
       Except.error TaskError.indexError) :=
  ⟨rfl, claim_C10_empty_registry exTask0 TrainInput.hfDataset none none none
    "model.pkl" PredictInput.hfDataset true rfl⟩

end Cyclops
